import Mathlib

/-!
Verification of the matterbridge-meross-lights core: the Meross local-HTTP
protocol codec (`src/merossHttp.ts`) and the device command translator
(platform command handlers). Machine integers are modelled as `ℕ` with
explicit `% 2^w`; JS numbers that can be fractional are modelled as `ℚ`.
-/

namespace Meross

/-! ## Bytes and hex encoding -/

/-- Lowercase hex digit for a nibble, as in Node's `digest('hex')`. -/
def hexDigitChar (n : ℕ) : Char :=
  if n < 10 then Char.ofNat (48 + n) else Char.ofNat (87 + n)

/-- One byte to two lowercase hex characters. -/
def byteToHex (b : ℕ) : List Char :=
  [hexDigitChar (b / 16), hexDigitChar (b % 16)]

/-- Byte list to its lowercase hex string, as `Buffer.toString('hex')`. -/
def bytesToHex (bs : List ℕ) : String :=
  String.mk (bs.map byteToHex).flatten

/-- UTF-8 bytes of one character. -/
def utf8Bytes (c : Char) : List ℕ :=
  let n := c.toNat
  if n < 128 then [n]
  else if n < 2048 then [192 ||| (n >>> 6), 128 ||| (n &&& 63)]
  else if n < 65536 then
    [224 ||| (n >>> 12), 128 ||| ((n >>> 6) &&& 63), 128 ||| (n &&& 63)]
  else
    [240 ||| (n >>> 18), 128 ||| ((n >>> 12) &&& 63),
     128 ||| ((n >>> 6) &&& 63), 128 ||| (n &&& 63)]

/-- UTF-8 bytes of a string, as Node's `hash.update(s)` (utf8 default). -/
def strBytes (s : String) : List ℕ :=
  (s.data.map utf8Bytes).flatten

/-! ## MD5 (the digest used by `createMerossSign`) -/

/-- 32-bit truncation. -/
def w32 (n : ℕ) : ℕ := n % 4294967296

/-- 32-bit bitwise complement (argument assumed `< 2^32`). -/
def wnot (x : ℕ) : ℕ := Nat.xor x 4294967295

/-- 32-bit left rotation by `s` (with `x < 2^32`, `s < 32`). -/
def rotl (x s : ℕ) : ℕ := w32 ((x <<< s) ||| (x >>> (32 - s)))

/-- MD5 per-round shift amounts. -/
def md5S : List ℕ :=
  [7, 12, 17, 22, 7, 12, 17, 22, 7, 12, 17, 22, 7, 12, 17, 22,
   5, 9, 14, 20, 5, 9, 14, 20, 5, 9, 14, 20, 5, 9, 14, 20,
   4, 11, 16, 23, 4, 11, 16, 23, 4, 11, 16, 23, 4, 11, 16, 23,
   6, 10, 15, 21, 6, 10, 15, 21, 6, 10, 15, 21, 6, 10, 15, 21]

/-- MD5 per-round additive constants. -/
def md5K : List ℕ :=
  [0xd76aa478, 0xe8c7b756, 0x242070db, 0xc1bdceee,
   0xf57c0faf, 0x4787c62a, 0xa8304613, 0xfd469501,
   0x698098d8, 0x8b44f7af, 0xffff5bb1, 0x895cd7be,
   0x6b901122, 0xfd987193, 0xa679438e, 0x49b40821,
   0xf61e2562, 0xc040b340, 0x265e5a51, 0xe9b6c7aa,
   0xd62f105d, 0x02441453, 0xd8a1e681, 0xe7d3fbc8,
   0x21e1cde6, 0xc33707d6, 0xf4d50d87, 0x455a14ed,
   0xa9e3e905, 0xfcefa3f8, 0x676f02d9, 0x8d2a4c8a,
   0xfffa3942, 0x8771f681, 0x6d9d6122, 0xfde5380c,
   0xa4beea44, 0x4bdecfa9, 0xf6bb4b60, 0xbebfbc70,
   0x289b7ec6, 0xeaa127fa, 0xd4ef3085, 0x04881d05,
   0xd9d4d039, 0xe6db99e5, 0x1fa27cf8, 0xc4ac5665,
   0xf4292244, 0x432aff97, 0xab9423a7, 0xfc93a039,
   0x655b59c3, 0x8f0ccc92, 0xffeff47d, 0x85845dd1,
   0x6fa87e4f, 0xfe2ce6e0, 0xa3014314, 0x4e0811a1,
   0xf7537e82, 0xbd3af235, 0x2ad7d2bb, 0xeb86d391]

/-- MD5 round mixing function for round `i`. -/
def md5F (i b c d : ℕ) : ℕ :=
  if i < 16 then (b &&& c) ||| (wnot b &&& d)
  else if i < 32 then (d &&& b) ||| (wnot d &&& c)
  else if i < 48 then Nat.xor (Nat.xor b c) d
  else Nat.xor c (b ||| wnot d)

/-- MD5 message-word index for round `i`. -/
def md5G (i : ℕ) : ℕ :=
  if i < 16 then i
  else if i < 32 then (5 * i + 1) % 16
  else if i < 48 then (3 * i + 5) % 16
  else (7 * i) % 16

/-- One MD5 round on state `(a,b,c,d)` with 16-word block `M`. -/
def md5Step (M : List ℕ) (st : ℕ × ℕ × ℕ × ℕ) (i : ℕ) : ℕ × ℕ × ℕ × ℕ :=
  match st with
  | (a, b, c, d) =>
    let f := w32 (md5F i b c d + a + md5K.getD i 0 + M.getD (md5G i) 0)
    (d, w32 (b + rotl f (md5S.getD i 0)), b, c)

/-- MD5 compression of one 16-word block. -/
def md5Compress (st : ℕ × ℕ × ℕ × ℕ) (M : List ℕ) : ℕ × ℕ × ℕ × ℕ :=
  match st, (List.range 64).foldl (md5Step M) st with
  | (a0, b0, c0, d0), (a, b, c, d) =>
    (w32 (a0 + a), w32 (b0 + b), w32 (c0 + c), w32 (d0 + d))

/-- Little-endian 32-bit words from bytes (groups of 4). -/
def bytesToWordsLE : List ℕ → List ℕ
  | b0 :: b1 :: b2 :: b3 :: rest =>
    (b0 + 256 * b1 + 65536 * b2 + 16777216 * b3) :: bytesToWordsLE rest
  | _ => []

/-- Little-endian 8-byte encoding of the 64-bit bit length. -/
def lenBytesLE (n : ℕ) : List ℕ :=
  (List.range 8).map (fun i => (n >>> (8 * i)) % 256)

/-- MD5 padding: `0x80`, zeros to 56 mod 64, then the 64-bit bit length. -/
def md5Pad (msg : List ℕ) : List ℕ :=
  msg ++ [128] ++ List.replicate ((119 - msg.length % 64) % 64) 0
      ++ lenBytesLE (8 * msg.length)

/-- Process the padded message block by block (fuel-driven for structural
recursion; called with fuel = byte length, ample since blocks are 64 bytes). -/
def md5Loop : ℕ → List ℕ → (ℕ × ℕ × ℕ × ℕ) → ℕ × ℕ × ℕ × ℕ
  | 0, _, st => st
  | fuel + 1, bytes, st =>
    match bytes with
    | [] => st
    | _ => md5Loop fuel (bytes.drop 64) (md5Compress st (bytesToWordsLE (bytes.take 64)))

/-- Little-endian 4-byte serialization of a 32-bit word. -/
def wordToBytesLE (w : ℕ) : List ℕ :=
  [w % 256, (w >>> 8) % 256, (w >>> 16) % 256, (w >>> 24) % 256]

/-- MD5 digest: byte list to its 16 digest bytes. -/
def md5Bytes (msg : List ℕ) : List ℕ :=
  let padded := md5Pad msg
  match md5Loop padded.length padded (1732584193, 4023233417, 2562383102, 271733878) with
  | (a, b, c, d) => wordToBytesLE a ++ wordToBytesLE b ++ wordToBytesLE c ++ wordToBytesLE d

/-! ## Protocol codec (`src/merossHttp.ts`) -/

/-- `createMerossMessageId`: 16 random bytes hex-encoded. The random source
is passed explicitly as the byte list `crypto.randomBytes(16)` returned. -/
def createMerossMessageId (randomBytes16 : List ℕ) : String :=
  bytesToHex randomBytes16

/-- `createMerossSign`: `md5(messageId + key + timestamp)` hex, lowercase. -/
def createMerossSign (messageId key : String) (timestamp : ℕ) : String :=
  bytesToHex (md5Bytes (strBytes (messageId ++ key ++ toString timestamp)))

/-- A character is a lowercase hex digit. -/
def isHexLower (c : Char) : Prop :=
  (48 ≤ c.toNat ∧ c.toNat ≤ 57) ∨ (97 ≤ c.toNat ∧ c.toNat ≤ 102)

instance (c : Char) : Decidable (isHexLower c) := by
  unfold isHexLower; infer_instance

/-! ## JS numeric primitives -/

/-- JS `Math.round`: round half toward `+∞`, i.e. `⌊q + 1/2⌋`. -/
def jsRound (q : ℚ) : ℤ := ⌊q + 1/2⌋

/-- The platform's `clamp(n, min, max) = Math.max(min, Math.min(max, n))`. -/
def clampQ (n lo hi : ℚ) : ℚ := max lo (min hi n)

/-- JS `%` (fmod). For the nonnegative dividends and positive divisors used
in this code, truncation toward zero coincides with the floor. -/
def jsMod (a b : ℚ) : ℚ := a - b * ⌊a / b⌋

/-! ## `rgbToInt` and the HSV→RGB conversion -/

/-- One channel of `rgbToInt`: `Math.max(0, Math.min(255, Math.round(x)))`. -/
def clamp255 (x : ℚ) : ℤ := max 0 (min 255 (jsRound x))

/-- `rgbToInt`: clamp each channel to 0..255 then pack `(rr << 16) | (gg << 8) | bb`. -/
def rgbToInt (r g b : ℚ) : ℕ :=
  ((clamp255 r).toNat <<< 16) ||| ((clamp255 g).toNat <<< 8) ||| (clamp255 b).toNat

/-- The `(r, g, b)` integer channels computed inside `hsvToRgbInt`
(`Math.round((r1 + m) * 255)` and friends). -/
def hsvChannels (hue254 sat254 : ℚ) : ℤ × ℤ × ℤ :=
  let h := clampQ hue254 0 254 / 254 * 360
  let s := clampQ sat254 0 254 / 254
  let v : ℚ := 1
  let c := v * s
  let x := c * (1 - |jsMod (h / 60) 2 - 1|)
  let m := v - c
  let rgb1 : ℚ × ℚ × ℚ :=
    if h < 60 then (c, x, 0)
    else if h < 120 then (x, c, 0)
    else if h < 180 then (0, c, x)
    else if h < 240 then (0, x, c)
    else if h < 300 then (x, 0, c)
    else (c, 0, x)
  (jsRound ((rgb1.1 + m) * 255), jsRound ((rgb1.2.1 + m) * 255),
   jsRound ((rgb1.2.2 + m) * 255))

/-- `hsvToRgbInt`: hue/sat 0..254 to a packed `0xRRGGBB` integer. -/
def hsvToRgbInt (hue254 sat254 : ℚ) : ℕ :=
  let ch := hsvChannels hue254 sat254
  rgbToInt (ch.1 : ℚ) (ch.2.1 : ℚ) (ch.2.2 : ℚ)

/-- Modelled from the spec: the standard six-sector HSV→RGB reference — hue
scaled to 0–360 degrees, saturation scaled to 0–1, value fixed at 1, chroma
`c = v*s`, intermediate `x = c*(1 − |((h/60) mod 2) − 1|)`, lightness offset
`m = v − c`, 60°-wide sector index `⌊h/60⌋`, each channel rounded to the
nearest integer after adding the offset. -/
def hsvRefChannels (hue254 sat254 : ℚ) : ℤ × ℤ × ℤ :=
  let h := clampQ hue254 0 254 / 254 * 360
  let s := clampQ sat254 0 254 / 254
  let v : ℚ := 1
  let c := v * s
  let x := c * (1 - |jsMod (h / 60) 2 - 1|)
  let m := v - c
  let sector := ⌊h / 60⌋
  let rgb1 : ℚ × ℚ × ℚ :=
    if sector = 0 then (c, x, 0)
    else if sector = 1 then (x, c, 0)
    else if sector = 2 then (0, c, x)
    else if sector = 3 then (0, x, c)
    else if sector = 4 then (x, 0, c)
    else (c, 0, x)
  (jsRound ((rgb1.1 + m) * 255), jsRound ((rgb1.2.1 + m) * 255),
   jsRound ((rgb1.2.2 + m) * 255))

/-- Modelled from the spec: unpacking a 24-bit packed color, high byte `r`,
middle byte `g`, low byte `b`. The source only packs (`rgbToInt`); this is
the spec's inverse used to state the round-trip law. -/
def unpackRgbSpec (n : ℕ) : ℕ × ℕ × ℕ :=
  (n / 65536 % 256, n / 256 % 256, n % 256)

/-! ## Commands posted to the device -/

/-- A protocol command as posted by the codec: the ToggleX payload
`{channel, onoff}` or the Light payload `{channel, capacity, luminance, rgb}`. -/
inductive Command where
  | toggle (channel onoff : ℕ)
  | light (channel capacity : ℕ) (luminance : ℤ) (rgb : ℕ)
deriving DecidableEq, Repr

/-- `merossToggleX`: posts `{togglex: {channel, onoff: on ? 1 : 0}}`. -/
def merossToggleX (channel : ℕ) (isOn : Bool) : Command :=
  Command.toggle channel (if isOn then 1 else 0)

/-- `merossSetRgbAndBrightness`: posts
`{light: {rgb: rgb24 >>> 0, capacity: 5, luminance: clamp(round(lum)), channel}}`. -/
def merossSetRgbAndBrightness (channel : ℕ) (rgb24 : ℕ) (luminance : ℚ) : Command :=
  Command.light channel 5 (max 0 (min 100 (jsRound luminance))) (rgb24 % 4294967296)

/-! ## Device command translator (per-device handlers) -/

/-- The per-device cache `lastRgb` / `lastLum` captured by the handlers. -/
structure DevState where
  lastRgb : ℕ
  lastLum : ℤ
deriving DecidableEq, Repr

/-- Cache at registration: `lastRgb = 0xffffff`, `lastLum = 100`. -/
def initialDevState : DevState := ⟨16777215, 100⟩

/-- Level conversion in the level handlers:
`Math.round((clamp(raw, 0, 254) / 254) * 100)`. -/
def convertLevel (raw : ℚ) : ℤ := jsRound (clampQ raw 0 254 / 254 * 100)

/-- The `moveToLevel` handler. `level` is the request's numeric level, `none`
when absent or non-finite (the `Number.isFinite` guard returns early).
Returns the updated cache and the commands posted, in order. -/
def moveToLevel (channel : ℕ) (st : DevState) (level : Option ℚ) :
    DevState × List Command :=
  match level with
  | none => (st, [])
  | some raw =>
    let lum := convertLevel raw
    ({ st with lastLum := lum },
     [merossSetRgbAndBrightness channel st.lastRgb (lum : ℚ)])

/-- The `moveToLevelWithOnOff` handler. `powerOk` tells whether the awaited
power-on `merossToggleX` call succeeds; when it fails, the rejection
propagates and the light command is never posted. Returns the updated cache,
the commands attempted in order, and whether the handler ran to completion. -/
def moveToLevelWithOnOff (channel : ℕ) (st : DevState) (level : Option ℚ)
    (powerOk : Bool) : DevState × List Command × Bool :=
  match level with
  | none => (st, [], true)
  | some raw =>
    let lum := convertLevel raw
    let st' := { st with lastLum := lum }
    if 0 < lum then
      if powerOk then
        (st', [merossToggleX channel true,
               merossSetRgbAndBrightness channel st.lastRgb (lum : ℚ)], true)
      else
        (st', [merossToggleX channel true], false)
    else
      (st', [merossSetRgbAndBrightness channel st.lastRgb (lum : ℚ)], true)

/-- The `moveToHueAndSaturation` handler. `hue`/`sat` are the request's
numeric fields, `none` when absent or non-finite. -/
def moveToHueAndSaturation (channel : ℕ) (st : DevState)
    (hue sat : Option ℚ) : DevState × List Command :=
  match hue, sat with
  | some h, some s =>
    let rgb := hsvToRgbInt h s
    ({ st with lastRgb := rgb },
     [merossSetRgbAndBrightness channel rgb (st.lastLum : ℚ)])
  | _, _ => (st, [])

/-! ## Configuration validation (`validateDevices` / `discoverDevices`) -/

/-- A per-device configuration record. A missing field is modelled as the
empty string, JS-falsy exactly like the code's `!d?.id` checks. -/
structure MerossDeviceConfig where
  id : String
  name : String
  ip : String
  key : String
deriving DecidableEq, Repr

/-- The startup errors thrown by `validateDevices`. -/
inductive ConfigError where
  | noDevices
  | missingField
  | duplicateId (id : String)
deriving DecidableEq, Repr

/-- `!d?.id || !d?.name || !d?.ip || !d?.key`. -/
def hasMissingField (d : MerossDeviceConfig) : Bool :=
  d.id == "" || d.name == "" || d.ip == "" || d.key == ""

/-- The `for (const d of devices)` loop of `validateDevices`, with the
`seen` set of ids threaded. -/
def validateLoop (seen : List String) :
    List MerossDeviceConfig → Except ConfigError Unit
  | [] => Except.ok ()
  | d :: rest =>
    if hasMissingField d then Except.error ConfigError.missingField
    else if d.id ∈ seen then Except.error (ConfigError.duplicateId d.id)
    else validateLoop (d.id :: seen) rest

/-- `validateDevices`: requires a nonempty device array, then checks every
device for missing fields and duplicate ids. -/
def validateDevices (devices : List MerossDeviceConfig) :
    Except ConfigError (List MerossDeviceConfig) :=
  if devices.isEmpty then Except.error ConfigError.noDevices
  else
    match validateLoop [] devices with
    | Except.error e => Except.error e
    | Except.ok _ => Except.ok devices

/-- `discoverDevices`: validates the configuration first; the registration
loop runs only after validation succeeds. Returns the ids of the registered
devices and the startup error, if any. -/
def discoverDevices (devices : List MerossDeviceConfig) :
    List String × Option ConfigError :=
  match validateDevices devices with
  | Except.error e => ([], some e)
  | Except.ok ds => (ds.map (fun d => d.id), none)

/-! ## Response handling of `merossPostConfig` -/

/-- An HTTP response as seen by `merossPostConfig`: its status and the body
text produced by `res.text()`. -/
structure HttpResponse where
  status : ℕ
  body : String
deriving DecidableEq, Repr

/-- `res.ok`: the status is in the 200–299 range. -/
def responseOk (r : HttpResponse) : Bool :=
  (200 ≤ r.status && r.status < 300 : Bool)

/-- The error thrown by `merossPostConfig` on a non-ok status:
`` new Error(`Meross HTTP ${res.status}: ${text}`) ``. -/
inductive PostError where
  | deviceRejected (status : ℕ) (body : String)
deriving DecidableEq, Repr

/-- A successful `merossPostConfig` outcome: parsed JSON or the raw text. -/
inductive PostResult (J : Type) where
  | json (j : J)
  | raw (text : String)
deriving DecidableEq, Repr

/-- Response handling of `merossPostConfig`: throw on non-ok status, else
try `JSON.parse` (abstracted as `parse`, `none` when it throws) and fall
back to the raw text. -/
def merossPostConfig (J : Type) (parse : String → Option J)
    (r : HttpResponse) : Except PostError (PostResult J) :=
  if !(responseOk r) then
    Except.error (PostError.deviceRejected r.status r.body)
  else
    match parse r.body with
    | some j => Except.ok (PostResult.json j)
    | none => Except.ok (PostResult.raw r.body)

/-! ## Helper lemmas -/

theorem hexDigitChar_isHexLower (n : ℕ) (h : n < 16) : isHexLower (hexDigitChar n) := by
  interval_cases n <;> decide

theorem byteToHex_isHexLower (b : ℕ) (hb : b < 256) :
    ∀ c ∈ byteToHex b, isHexLower c := by
  intro c hc
  simp only [byteToHex, List.mem_cons, List.not_mem_nil, or_false] at hc
  rcases hc with h | h
  · exact h ▸ hexDigitChar_isHexLower _ (by omega)
  · exact h ▸ hexDigitChar_isHexLower _ (Nat.mod_lt _ (by norm_num))

theorem bytesToHex_data (bs : List ℕ) :
    (bytesToHex bs).data = (bs.map byteToHex).flatten := rfl

theorem bytesToHex_length (bs : List ℕ) :
    (bytesToHex bs).length = 2 * bs.length := by
  show (bytesToHex bs).data.length = 2 * bs.length
  rw [bytesToHex_data]
  induction bs with
  | nil => rfl
  | cons b rest ih =>
    simp only [List.map_cons, List.flatten_cons, List.length_append, ih,
      List.length_cons, byteToHex, List.length_nil]
    ring

theorem bytesToHex_isHexLower (bs : List ℕ) (hbs : ∀ b ∈ bs, b < 256) :
    ∀ c ∈ (bytesToHex bs).data, isHexLower c := by
  intro c hc
  rw [bytesToHex_data] at hc
  rcases List.mem_flatten.mp hc with ⟨l, hl, hcl⟩
  rcases List.mem_map.mp hl with ⟨b, hb, rfl⟩
  exact byteToHex_isHexLower b (hbs b hb) c hcl

theorem md5Bytes_length (msg : List ℕ) : (md5Bytes msg).length = 16 := by
  unfold md5Bytes
  rcases md5Loop (md5Pad msg).length (md5Pad msg) (1732584193, 4023233417, 2562383102, 271733878)
    with ⟨a, b, c, d⟩
  rfl

theorem wordToBytesLE_lt (w : ℕ) : ∀ b ∈ wordToBytesLE w, b < 256 := by
  intro x hx
  simp only [wordToBytesLE, List.mem_cons, List.not_mem_nil, or_false] at hx
  rcases hx with h | h | h | h <;> exact h ▸ Nat.mod_lt _ (by norm_num)

theorem md5Bytes_lt (msg : List ℕ) : ∀ b ∈ md5Bytes msg, b < 256 := by
  unfold md5Bytes
  rcases md5Loop (md5Pad msg).length (md5Pad msg) (1732584193, 4023233417, 2562383102, 271733878)
    with ⟨a, b, c, d⟩
  intro x hx
  simp only [List.mem_append] at hx
  rcases hx with ((h | h) | h) | h <;> exact wordToBytesLE_lt _ x h

/-! ## C1: request signature and message id -/

set_option maxRecDepth 10000 in
/-- C1: the request signature is the lowercase hex encoding of the MD5 digest
of `messageId ++ secret ++ decimal(timestamp)`; it is deterministic and a
32-character lowercase hex string (checked byte-for-byte against the
reference digest for the spec's example input); the message id placed in the
envelope is 16 random bytes hex-encoded, i.e. 32 lowercase hex characters. -/
theorem c1_sign_and_messageId (messageId key : String) (ts : ℕ)
    (rnd : List ℕ) (hlen : rnd.length = 16) (hbytes : ∀ b ∈ rnd, b < 256) :
    createMerossSign messageId key ts
      = bytesToHex (md5Bytes (strBytes (messageId ++ key ++ toString ts)))
    ∧ (∀ m k t, m = messageId → k = key → t = ts →
        createMerossSign m k t = createMerossSign messageId key ts)
    ∧ (createMerossSign messageId key ts).length = 32
    ∧ (∀ c ∈ (createMerossSign messageId key ts).data, isHexLower c)
    ∧ (createMerossMessageId rnd).length = 32
    ∧ (∀ c ∈ (createMerossMessageId rnd).data, isHexLower c)
    ∧ createMerossSign "00112233445566778899aabbccddeeff" "k" 1700000000
        = "c7fabf3599be1af177a8695edb743e1a" := by
  refine ⟨rfl, ?_, ?_, ?_, ?_, ?_, ?_⟩
  · intro m k t hm hk ht; rw [hm, hk, ht]
  · rw [createMerossSign, bytesToHex_length, md5Bytes_length]
  · exact bytesToHex_isHexLower _ (md5Bytes_lt _)
  · rw [createMerossMessageId, bytesToHex_length, hlen]
  · exact bytesToHex_isHexLower _ hbytes
  · decide

/-! ## Numeric helper lemmas -/

theorem jsRound_intCast (n : ℤ) : jsRound (n : ℚ) = n := by
  unfold jsRound
  rw [Int.floor_int_add]
  norm_num

theorem jsRound_nonneg (q : ℚ) (h : 0 ≤ q) : 0 ≤ jsRound q := by
  unfold jsRound
  rw [Int.le_floor]
  push_cast
  linarith

theorem jsRound_le (q : ℚ) (n : ℤ) (h : q ≤ (n : ℚ)) : jsRound q ≤ n := by
  unfold jsRound
  have : ⌊q + 1/2⌋ ≤ ⌊(n : ℚ) + 1/2⌋ := Int.floor_le_floor (by linarith)
  rw [Int.floor_int_add] at this
  norm_num at this
  omega

theorem clampQ_nonneg (n hi : ℚ) : 0 ≤ clampQ n 0 hi := le_max_left 0 _

theorem clampQ_le (n hi : ℚ) (h : 0 ≤ hi) : clampQ n 0 hi ≤ hi := by
  unfold clampQ
  rw [max_le_iff]
  exact ⟨h, min_le_left _ _⟩

theorem jsMod_two_bounds (a : ℚ) : 0 ≤ jsMod a 2 ∧ jsMod a 2 < 2 := by
  unfold jsMod
  have h1 := Int.floor_le (a / 2)
  have h2 := Int.lt_floor_add_one (a / 2)
  constructor <;> linarith

/-! ## C6: rgb pack/unpack round-trip -/

theorem clamp255_intCast (n : ℤ) (h0 : 0 ≤ n) (h255 : n ≤ 255) :
    clamp255 (n : ℚ) = n := by
  unfold clamp255
  rw [jsRound_intCast]
  omega

theorem rgbToInt_eq_arith (r g b : ℕ) (hr : r ≤ 255) (hg : g ≤ 255) (hb : b ≤ 255) :
    rgbToInt (r : ℚ) (g : ℚ) (b : ℚ) = r * 65536 + g * 256 + b := by
  unfold rgbToInt
  have hhr : clamp255 ((r : ℕ) : ℚ) = (r : ℤ) := by
    rw [show (((r : ℕ) : ℚ)) = ((r : ℤ) : ℚ) by push_cast; ring]
    exact clamp255_intCast _ (by positivity) (by exact_mod_cast hr)
  have hhg : clamp255 ((g : ℕ) : ℚ) = (g : ℤ) := by
    rw [show (((g : ℕ) : ℚ)) = ((g : ℤ) : ℚ) by push_cast; ring]
    exact clamp255_intCast _ (by positivity) (by exact_mod_cast hg)
  have hhb : clamp255 ((b : ℕ) : ℚ) = (b : ℤ) := by
    rw [show (((b : ℕ) : ℚ)) = ((b : ℤ) : ℚ) by push_cast; ring]
    exact clamp255_intCast _ (by positivity) (by exact_mod_cast hb)
  rw [hhr, hhg, hhb, Int.toNat_natCast, Int.toNat_natCast, Int.toNat_natCast]
  rw [Nat.shiftLeft_eq, Nat.shiftLeft_eq, Nat.or_assoc, Nat.mul_comm r, Nat.mul_comm g]
  rw [← Nat.mul_add_lt_is_or (b := b) (i := 8) (by omega) g]
  rw [← Nat.mul_add_lt_is_or (b := 2 ^ 8 * g + b) (i := 16) (by nlinarith) r]
  ring

/-- C6: for all integer `(r, g, b)` in `[0,255]³`, packing with `rgbToInt`
and unpacking (high byte `r`, middle byte `g`, low byte `b`) recovers
exactly the original triple. -/
theorem c6_rgb_roundtrip (r g b : ℕ) (hr : r ≤ 255) (hg : g ≤ 255) (hb : b ≤ 255) :
    unpackRgbSpec (rgbToInt (r : ℚ) (g : ℚ) (b : ℚ)) = (r, g, b) := by
  rw [rgbToInt_eq_arith r g b hr hg hb]
  unfold unpackRgbSpec
  refine Prod.ext ?_ (Prod.ext ?_ ?_) <;> simp <;> omega

/-- Witness for C6 at a concrete input. -/
theorem c6_rgb_roundtrip_witness :
    unpackRgbSpec (rgbToInt ((18 : ℕ) : ℚ) ((52 : ℕ) : ℚ) ((255 : ℕ) : ℚ)) = (18, 52, 255) :=
  c6_rgb_roundtrip 18 52 255 (by norm_num) (by norm_num) (by norm_num)

/-! ## C7: send outcome decided by HTTP status -/

/-- C7: `merossPostConfig`'s outcome is decided by the HTTP status alone:
a non-success status fails with the rejection error carrying the status and
raw body text, and a success status with a non-JSON body succeeds with the
raw body text. -/
theorem c7_status_decides (J : Type) (parse : String → Option J) (r : HttpResponse) :
    (¬ (200 ≤ r.status ∧ r.status < 300) →
      merossPostConfig J parse r
        = Except.error (PostError.deviceRejected r.status r.body))
    ∧ ((200 ≤ r.status ∧ r.status < 300) → parse r.body = none →
      merossPostConfig J parse r = Except.ok (PostResult.raw r.body)) := by
  constructor
  · intro hbad
    unfold merossPostConfig responseOk
    have : ¬ (200 ≤ r.status && r.status < 300 : Bool) = true := by
      simp only [Bool.and_eq_true, decide_eq_true_eq]
      exact hbad
    simp [this]
  · intro hok hparse
    unfold merossPostConfig responseOk
    have : (200 ≤ r.status && r.status < 300 : Bool) = true := by
      simp only [Bool.and_eq_true, decide_eq_true_eq]
      exact hok
    simp [this, hparse]

/-- Witness for C7 at concrete responses. -/
theorem c7_status_decides_witness :
    merossPostConfig Unit (fun _ => none) ⟨500, "oops"⟩
      = Except.error (PostError.deviceRejected 500 "oops")
    ∧ merossPostConfig Unit (fun _ => none) ⟨200, "notjson"⟩
      = Except.ok (PostResult.raw "notjson") :=
  ⟨(c7_status_decides Unit (fun _ => none) ⟨500, "oops"⟩).1 (by decide),
   (c7_status_decides Unit (fun _ => none) ⟨200, "notjson"⟩).2 (by decide) rfl⟩

/-! ## Handler lemmas -/

theorem convertLevel_bounds (raw : ℚ) :
    0 ≤ convertLevel raw ∧ convertLevel raw ≤ 100 := by
  unfold convertLevel
  constructor
  · exact jsRound_nonneg _
      (mul_nonneg (div_nonneg (clampQ_nonneg raw 254) (by norm_num)) (by norm_num))
  · apply jsRound_le
    have h := clampQ_le raw 254 (by norm_num)
    linarith

theorem merossSetRgb_int (channel : ℕ) (rgb24 : ℕ) (lum : ℤ)
    (h0 : 0 ≤ lum) (h1 : lum ≤ 100) (hrgb : rgb24 < 4294967296) :
    merossSetRgbAndBrightness channel rgb24 (lum : ℚ)
      = Command.light channel 5 lum rgb24 := by
  unfold merossSetRgbAndBrightness
  rw [jsRound_intCast, Nat.mod_eq_of_lt hrgb]
  have : max 0 (min 100 lum) = lum := by omega
  rw [this]

theorem rgbToInt_lt (r g b : ℚ) : rgbToInt r g b < 4294967296 := by
  unfold rgbToInt
  have h1 : (clamp255 r).toNat < 256 := by unfold clamp255; omega
  have h2 : (clamp255 g).toNat < 256 := by unfold clamp255; omega
  have h3 : (clamp255 b).toNat < 256 := by unfold clamp255; omega
  have e : (4294967296 : ℕ) = 2 ^ 32 := by norm_num
  rw [e, Nat.shiftLeft_eq, Nat.shiftLeft_eq]
  exact Nat.or_lt_two_pow (Nat.or_lt_two_pow (by nlinarith) (by nlinarith)) (by nlinarith)

theorem hsvToRgbInt_lt (hq sq : ℚ) : hsvToRgbInt hq sq < 4294967296 :=
  rgbToInt_lt _ _ _

/-! ## C2: the brightness intent -/

/-- C2: for every device cache and level, `moveToLevel` converts the level to
`round(clamp(levelRaw,0,254)/254*100)` (with 254 ↦ 100, 0 ↦ 0, 127 ↦ 50),
updates the cached luminance to it, and issues exactly one Light command with
capacity 5, the converted luminance, and the currently cached color. -/
theorem c2_moveToLevel (channel : ℕ) (st : DevState) (raw : ℚ)
    (hrgb : st.lastRgb < 4294967296) :
    moveToLevel channel st (some raw)
      = ({ st with lastLum := jsRound (clampQ raw 0 254 / 254 * 100) },
         [Command.light channel 5 (jsRound (clampQ raw 0 254 / 254 * 100)) st.lastRgb])
    ∧ convertLevel 254 = 100 ∧ convertLevel 0 = 0 ∧ convertLevel 127 = 50 := by
  refine ⟨?_, by norm_num [convertLevel, clampQ, jsRound, max_def, min_def],
    by norm_num [convertLevel, clampQ, jsRound, max_def, min_def],
    by norm_num [convertLevel, clampQ, jsRound, max_def, min_def]⟩
  simp only [moveToLevel]
  rw [merossSetRgb_int channel st.lastRgb (convertLevel raw)
    (convertLevel_bounds raw).1 (convertLevel_bounds raw).2 hrgb]
  rfl

/-- Witness for C2 at a concrete input. -/
theorem c2_moveToLevel_witness :
    moveToLevel 0 initialDevState (some 127)
      = ({ initialDevState with lastLum := jsRound (clampQ 127 0 254 / 254 * 100) },
         [Command.light 0 5 (jsRound (clampQ 127 0 254 / 254 * 100)) 16777215]) :=
  (c2_moveToLevel 0 initialDevState 127 (by norm_num [initialDevState])).1

/-! ## C3: hue/saturation then brightness reuses the cached color -/

/-- C3: after `moveToHueAndSaturation`, the cached color is the converted
color, and a following `moveToLevel` on the same device issues a Light
command whose rgb is that color, not the registration default. -/
theorem c3_cache_combination (channel : ℕ) (st : DevState) (hq sq raw : ℚ) :
    (moveToHueAndSaturation channel st (some hq) (some sq)).1.lastRgb
      = hsvToRgbInt hq sq
    ∧ (moveToLevel channel (moveToHueAndSaturation channel st (some hq) (some sq)).1
        (some raw)).2
      = [Command.light channel 5 (convertLevel raw) (hsvToRgbInt hq sq)] := by
  constructor
  · rfl
  · simp only [moveToHueAndSaturation, moveToLevel]
    rw [merossSetRgb_int channel (hsvToRgbInt hq sq) (convertLevel raw)
      (convertLevel_bounds raw).1 (convertLevel_bounds raw).2 (hsvToRgbInt_lt hq sq)]

/-! ## C4: power-on sequencing in moveToLevelWithOnOff -/

/-- C4: when the converted luminance is positive, `moveToLevelWithOnOff`
issues the power-on toggle first; if the power-on call fails, the Light
command is never issued. -/
theorem c4_sequencing (channel : ℕ) (st : DevState) (raw : ℚ)
    (hpos : 0 < convertLevel raw) :
    (∀ powerOk : Bool, ∃ rest,
      (moveToLevelWithOnOff channel st (some raw) powerOk).2.1
        = merossToggleX channel true :: rest)
    ∧ (moveToLevelWithOnOff channel st (some raw) false).2.1
        = [merossToggleX channel true]
    ∧ (∀ ch cap lum rgb, Command.light ch cap lum rgb ∉
        (moveToLevelWithOnOff channel st (some raw) false).2.1) := by
  refine ⟨?_, ?_, ?_⟩
  · intro powerOk
    cases powerOk
    · exact ⟨[], by simp [moveToLevelWithOnOff, if_pos hpos]⟩
    · exact ⟨[merossSetRgbAndBrightness channel st.lastRgb ((convertLevel raw : ℤ) : ℚ)],
        by simp [moveToLevelWithOnOff, if_pos hpos]⟩
  · simp [moveToLevelWithOnOff, if_pos hpos]
  · intro ch cap lum rgb
    simp [moveToLevelWithOnOff, if_pos hpos, merossToggleX]

/-- Witness for C4 at a concrete input (level 200 converts to 79 > 0). -/
theorem c4_sequencing_witness :
    (moveToLevelWithOnOff 0 initialDevState (some 200) false).2.1
      = [merossToggleX 0 true] :=
  (c4_sequencing 0 initialDevState 200
    (by norm_num [convertLevel, clampQ, jsRound, max_def, min_def])).2.1

/-! ## C10: absent or non-finite request fields are a no-op -/

/-- C10: when the request carries no finite numeric level (resp. hue and
saturation), each handler returns without error, posts no command, and
leaves the cached color and luminance unchanged. -/
theorem c10_nonfinite_noop (channel : ℕ) (st : DevState) (powerOk : Bool)
    (hue sat : Option ℚ) (hmiss : hue = none ∨ sat = none) :
    moveToLevel channel st none = (st, [])
    ∧ moveToLevelWithOnOff channel st none powerOk = (st, [], true)
    ∧ moveToHueAndSaturation channel st hue sat = (st, []) := by
  refine ⟨rfl, rfl, ?_⟩
  rcases hmiss with rfl | rfl
  · rfl
  · cases hue <;> rfl

/-- Witness for C10 at a concrete input. -/
theorem c10_nonfinite_noop_witness :
    moveToHueAndSaturation 0 initialDevState (some 42) none = (initialDevState, []) :=
  (c10_nonfinite_noop 0 initialDevState true (some 42) none (Or.inr rfl)).2.2

/-! ## C8: invalid configuration fails before any registration -/

theorem validateLoop_error_of_bad :
    ∀ (l : List MerossDeviceConfig) (seen : List String),
      (¬ (l.map (fun d => d.id)).Nodup
        ∨ (∃ d ∈ l, hasMissingField d = true)
        ∨ (∃ d ∈ l, d.id ∈ seen)) →
      ∃ e, validateLoop seen l = Except.error e := by
  intro l
  induction l with
  | nil =>
    intro seen hbad
    exfalso
    rcases hbad with h | ⟨d, hd, _⟩ | ⟨d, hd, _⟩
    · exact h (by simp)
    · exact absurd hd (List.not_mem_nil d)
    · exact absurd hd (List.not_mem_nil d)
  | cons d rest ih =>
    intro seen hbad
    by_cases hmf : hasMissingField d = true
    · exact ⟨ConfigError.missingField, by simp [validateLoop, hmf]⟩
    · by_cases hseen : d.id ∈ seen
      · exact ⟨ConfigError.duplicateId d.id,
          by simp [validateLoop, hmf, hseen]⟩
      · have step : validateLoop seen (d :: rest)
            = validateLoop (d.id :: seen) rest := by
          simp [validateLoop, hmf, hseen]
        rw [step]
        apply ih
        rcases hbad with h | ⟨d', hd', hbadf⟩ | ⟨d', hd', hd'seen⟩
        · rw [List.map_cons, List.nodup_cons] at h
          push_neg at h
          by_cases hmem : d.id ∈ rest.map (fun d => d.id)
          · rcases List.mem_map.mp hmem with ⟨d', hd', hid⟩
            exact Or.inr (Or.inr ⟨d', hd', by rw [hid]; exact List.mem_cons_self _ _⟩)
          · exact Or.inl (h hmem)
        · rcases List.mem_cons.mp hd' with rfl | hd'rest
          · exact absurd hbadf hmf
          · exact Or.inr (Or.inl ⟨d', hd'rest, hbadf⟩)
        · rcases List.mem_cons.mp hd' with rfl | hd'rest
          · exact absurd hd'seen hseen
          · exact Or.inr (Or.inr ⟨d', hd'rest, List.mem_cons_of_mem _ hd'seen⟩)

/-- C8: a configuration with a duplicate device id, or with a device missing
one of id, name, ip, key, makes startup fail with a configuration error and
registers no device at all. -/
theorem c8_invalid_config (devices : List MerossDeviceConfig)
    (hbad : ¬ (devices.map (fun d => d.id)).Nodup
      ∨ ∃ d ∈ devices, hasMissingField d = true) :
    ∃ e, discoverDevices devices = ([], some e) := by
  unfold discoverDevices validateDevices
  by_cases hemp : devices.isEmpty
  · exact ⟨ConfigError.noDevices, by simp [hemp]⟩
  · obtain ⟨e, he⟩ := validateLoop_error_of_bad devices []
      (by rcases hbad with h | h; exacts [Or.inl h, Or.inr (Or.inl h)])
    exact ⟨e, by simp [hemp, he]⟩

/-- Witness for C8: two devices sharing the id `"a"`. -/
theorem c8_invalid_config_witness :
    ∃ e, discoverDevices
      [⟨"a", "n1", "ip1", "k1"⟩, ⟨"a", "n2", "ip2", "k2"⟩] = ([], some e) :=
  c8_invalid_config _ (Or.inl (by decide))

/-! ## C5: HSV→RGB reference equality and channel ranges -/

theorem floor_div60_eq_iff (h : ℚ) (k : ℤ) :
    ⌊h / 60⌋ = k ↔ ((k : ℚ) * 60 ≤ h ∧ h < ((k : ℚ) + 1) * 60) := by
  rw [Int.floor_eq_iff, le_div_iff₀ (by norm_num : (0:ℚ) < 60),
    div_lt_iff₀ (by norm_num : (0:ℚ) < 60)]


theorem sector_select (h c x : ℚ) (h0 : 0 ≤ h) :
    (if h < 60 then (c, x, (0:ℚ))
     else if h < 120 then (x, c, 0)
     else if h < 180 then (0, c, x)
     else if h < 240 then (0, x, c)
     else if h < 300 then (x, 0, c)
     else (c, 0, x))
    = (if ⌊h / 60⌋ = 0 then (c, x, (0:ℚ))
       else if ⌊h / 60⌋ = 1 then (x, c, 0)
       else if ⌊h / 60⌋ = 2 then (0, c, x)
       else if ⌊h / 60⌋ = 3 then (0, x, c)
       else if ⌊h / 60⌋ = 4 then (x, 0, c)
       else (c, 0, x)) := by
  by_cases h1 : h < 60
  · have e : ⌊h / 60⌋ = 0 := (floor_div60_eq_iff h 0).mpr ⟨by push_cast; linarith,
      by push_cast; linarith⟩
    simp [h1, e]
  · by_cases h2 : h < 120
    · have e : ⌊h / 60⌋ = 1 := (floor_div60_eq_iff h 1).mpr ⟨by push_cast; linarith,
        by push_cast; linarith⟩
      simp [h1, h2, e]
    · by_cases h3 : h < 180
      · have e : ⌊h / 60⌋ = 2 := (floor_div60_eq_iff h 2).mpr ⟨by push_cast; linarith,
          by push_cast; linarith⟩
        simp [h1, h2, h3, e]
      · by_cases h4 : h < 240
        · have e : ⌊h / 60⌋ = 3 := (floor_div60_eq_iff h 3).mpr ⟨by push_cast; linarith,
            by push_cast; linarith⟩
          simp [h1, h2, h3, h4, e]
        · by_cases h5 : h < 300
          · have e : ⌊h / 60⌋ = 4 := (floor_div60_eq_iff h 4).mpr ⟨by push_cast; linarith,
              by push_cast; linarith⟩
            simp [h1, h2, h3, h4, h5, e]
          · have e : (5 : ℤ) ≤ ⌊h / 60⌋ := by
              rw [Int.le_floor, le_div_iff₀ (by norm_num : (0:ℚ) < 60)]
              push_cast
              linarith
            have e0 : ⌊h / 60⌋ ≠ 0 := by omega
            have e1 : ⌊h / 60⌋ ≠ 1 := by omega
            have e2 : ⌊h / 60⌋ ≠ 2 := by omega
            have e3 : ⌊h / 60⌋ ≠ 3 := by omega
            have e4 : ⌊h / 60⌋ ≠ 4 := by omega
            simp [h1, h2, h3, h4, h5, e0, e1, e2, e3, e4]

theorem hsvChannels_eq_ref (hue254 sat254 : ℚ) :
    hsvChannels hue254 sat254 = hsvRefChannels hue254 sat254 := by
  have h0 : 0 ≤ clampQ hue254 0 254 / 254 * 360 :=
    mul_nonneg (div_nonneg (clampQ_nonneg _ _) (by norm_num)) (by norm_num)
  simp only [hsvChannels, hsvRefChannels]
  rw [sector_select _ _ _ h0]

theorem round_unit_bounds (t : ℚ) (h0 : 0 ≤ t) (h1 : t ≤ 1) :
    0 ≤ jsRound (t * 255) ∧ jsRound (t * 255) ≤ 255 :=
  ⟨jsRound_nonneg _ (by linarith), jsRound_le _ 255 (by push_cast; linarith)⟩

set_option maxHeartbeats 1600000 in
theorem hsvChannels_range (hue254 sat254 : ℚ) :
    (0 ≤ (hsvChannels hue254 sat254).1 ∧ (hsvChannels hue254 sat254).1 ≤ 255)
    ∧ (0 ≤ (hsvChannels hue254 sat254).2.1 ∧ (hsvChannels hue254 sat254).2.1 ≤ 255)
    ∧ (0 ≤ (hsvChannels hue254 sat254).2.2 ∧ (hsvChannels hue254 sat254).2.2 ≤ 255) := by
  have hs0 : 0 ≤ clampQ sat254 0 254 / 254 :=
    div_nonneg (clampQ_nonneg _ _) (by norm_num)
  have hs1 : clampQ sat254 0 254 / 254 ≤ 1 := by
    have := clampQ_le sat254 254 (by norm_num : (0:ℚ) ≤ 254)
    linarith
  obtain ⟨hm0, hm2⟩ := jsMod_two_bounds (clampQ hue254 0 254 / 254 * 360 / 60)
  have habs0 : 0 ≤ |jsMod (clampQ hue254 0 254 / 254 * 360 / 60) 2 - 1| := abs_nonneg _
  have habs1 : |jsMod (clampQ hue254 0 254 / 254 * 360 / 60) 2 - 1| ≤ 1 :=
    abs_le.mpr ⟨by linarith, by linarith⟩
  have hx0 : 0 ≤ clampQ sat254 0 254 / 254
      * (1 - |jsMod (clampQ hue254 0 254 / 254 * 360 / 60) 2 - 1|) :=
    mul_nonneg hs0 (by linarith)
  have hx1 : clampQ sat254 0 254 / 254
      * (1 - |jsMod (clampQ hue254 0 254 / 254 * 360 / 60) 2 - 1|)
      ≤ clampQ sat254 0 254 / 254 := by
    nlinarith
  dsimp only [hsvChannels]
  split_ifs <;>
    refine ⟨⟨(round_unit_bounds _ ?_ ?_).1, (round_unit_bounds _ ?_ ?_).2⟩,
      ⟨(round_unit_bounds _ ?_ ?_).1, (round_unit_bounds _ ?_ ?_).2⟩,
      ⟨(round_unit_bounds _ ?_ ?_).1, (round_unit_bounds _ ?_ ?_).2⟩⟩ <;>
    dsimp only [] <;> linarith [hx0, hx1, hs0, hs1]

/-- C5: for hue/sat in `[0,254]²`, the code's HSV→RGB channels equal the
standard six-sector reference (hue scaled to 0–360, saturation to 0–1,
value 1, chroma/intermediate/offset as in the spec), every channel lies in
`[0,255]`, the packed conversion agrees with packing the reference channels,
and the conversion is deterministic. -/
theorem c5_hsv_reference (hue254 sat254 : ℚ)
    (hh0 : 0 ≤ hue254) (hh1 : hue254 ≤ 254)
    (hq0 : 0 ≤ sat254) (hq1 : sat254 ≤ 254) :
    hsvChannels hue254 sat254 = hsvRefChannels hue254 sat254
    ∧ (0 ≤ (hsvChannels hue254 sat254).1 ∧ (hsvChannels hue254 sat254).1 ≤ 255)
    ∧ (0 ≤ (hsvChannels hue254 sat254).2.1 ∧ (hsvChannels hue254 sat254).2.1 ≤ 255)
    ∧ (0 ≤ (hsvChannels hue254 sat254).2.2 ∧ (hsvChannels hue254 sat254).2.2 ≤ 255)
    ∧ hsvToRgbInt hue254 sat254
        = rgbToInt ((hsvRefChannels hue254 sat254).1 : ℚ)
            ((hsvRefChannels hue254 sat254).2.1 : ℚ)
            ((hsvRefChannels hue254 sat254).2.2 : ℚ)
    ∧ (∀ h' s', h' = hue254 → s' = sat254 →
        hsvToRgbInt h' s' = hsvToRgbInt hue254 sat254) := by
  obtain ⟨r1, r2, r3⟩ := hsvChannels_range hue254 sat254
  refine ⟨hsvChannels_eq_ref _ _, r1, r2, r3, ?_, ?_⟩
  · unfold hsvToRgbInt
    rw [hsvChannels_eq_ref]
  · intro h' s' he se
    rw [he, se]

/-- Witness for C5 at a concrete input. -/
theorem c5_hsv_reference_witness :
    hsvChannels 10 20 = hsvRefChannels 10 20 :=
  (c5_hsv_reference 10 20 (by norm_num) (by norm_num) (by norm_num) (by norm_num)).1

set_option maxRecDepth 10000 in
/-- Witness for C1 at a concrete input. -/
theorem c1_sign_and_messageId_witness :
    (createMerossSign "00112233445566778899aabbccddeeff" "k" 1700000000).length = 32
    ∧ (createMerossMessageId
        [0, 17, 34, 51, 68, 85, 102, 119, 136, 153, 170, 187, 204, 221, 238, 255]).length
        = 32 := by
  have h := c1_sign_and_messageId "00112233445566778899aabbccddeeff" "k" 1700000000
    [0, 17, 34, 51, 68, 85, 102, 119, 136, 153, 170, 187, 204, 221, 238, 255]
    (by decide) (by decide)
  exact ⟨h.2.2.1, h.2.2.2.2.1⟩

end Meross
